import Mathlib

/-!
Shallow embedding of `src/shared/lib/validator-pool.ts`.

The TypeScript module is a set of thin client helpers over a remote chain
(`api.query.validatorPool.*` reads, `api.tx.validatorPool.*` writes).  We
model the point-in-time chain responses as an explicit `ChainState` record
and translate each exported function into a pure Lean function over it.
JSON values that the source coerces with `|| 0` (resp. `|| []`) are modelled
as `Option Nat` (resp. `Option (List String)`) consumed with `Option.getD`.
JavaScript numbers that can go negative in intermediate arithmetic are
modelled as `Int`; chain storage counters (u32/u64) are `Nat`.
-/

namespace ValidatorPool

/-- The three pool categories, a closed variant
(`'StakeValidator' | 'ParliamentaryValidator' | 'MeritValidator'`). -/
inductive ValidatorPoolCategory
  | StakeValidator
  | ParliamentaryValidator
  | MeritValidator
deriving DecidableEq, Repr

/-- `ValidatorPerformance`: the hydrated performance counters. -/
structure ValidatorPerformance where
  blocksProduced : Nat
  blocksMissed : Nat
  eraPoints : Nat
  lastActiveEra : Nat
  reputationScore : Nat
deriving DecidableEq, Repr

/-- Raw JSON performance object as returned by
`performanceMetrics(account).unwrap().toJSON()`: each field may be absent,
the source coerces with `|| 0`. -/
structure RawPerformance where
  blocksProduced : Option Nat
  blocksMissed : Option Nat
  eraPoints : Option Nat
  lastActiveEra : Option Nat
  reputationScore : Option Nat
deriving DecidableEq, Repr

/-- `PoolMember`: composite built by hydration. -/
structure PoolMember where
  account : String
  category : ValidatorPoolCategory
  performance : ValidatorPerformance
  isActive : Bool
deriving DecidableEq, Repr

/-- Raw JSON value of `currentValidatorSet().toJSON()`; each field may be
absent, the source coerces with `|| 0` / `|| []`. -/
structure RawValidatorSet where
  eraIndex : Option Nat
  stakeValidators : Option (List String)
  parliamentaryValidators : Option (List String)
  meritValidators : Option (List String)
deriving DecidableEq, Repr

/-- `ValidatorSet` snapshot returned by `getCurrentValidatorSet`. -/
structure ValidatorSet where
  eraIndex : Nat
  stakeValidators : List String
  parliamentaryValidators : List String
  meritValidators : List String
deriving DecidableEq, Repr

/-- `PoolStats` returned by `getPoolStats`.  `blocksUntilNewEra` is kept as
`Int` to expose the `Math.max(0, ...)` clamp over signed JS arithmetic. -/
structure PoolStats where
  currentEra : Nat
  poolSize : Nat
  eraLength : Nat
  eraStartBlock : Nat
  currentBlock : Nat
  blocksUntilNewEra : Int
deriving DecidableEq, Repr

/-- Point-in-time chain responses consumed by the query helpers: one field
per `api.query.validatorPool.*` / `api.rpc.chain.*` read.  `Option` on the
numeric storage reads models a null `toJSON()` (coerced by `|| 0` in the
source); `none` on `currentValidatorSet` models the absent/`isEmpty` codec
value; `poolMembers` holds the entries of the chain's membership map. -/
structure ChainState where
  currentEra : Option Nat
  poolSize : Option Nat
  eraLength : Option Nat
  eraStart : Option Nat
  currentBlock : Nat
  poolMembers : List (String × ValidatorPoolCategory)
  performanceMetrics : String → Option RawPerformance
  currentValidatorSet : Option RawValidatorSet

/-- `getPoolStats`: reads era configuration and current height, clamps the
countdown with `Math.max(0, eraStartBlock + eraLen - currentBlock)`. -/
def getPoolStats (st : ChainState) : PoolStats :=
  let currentBlock := st.currentBlock
  let eraStartBlock := st.eraStart.getD 0
  let eraLen := st.eraLength.getD 0
  let blocksUntilNewEra : Int :=
    max 0 ((eraStartBlock : Int) + (eraLen : Int) - (currentBlock : Int))
  { currentEra := st.currentEra.getD 0
    poolSize := st.poolSize.getD 0
    eraLength := eraLen
    eraStartBlock := eraStartBlock
    currentBlock := currentBlock
    blocksUntilNewEra := blocksUntilNewEra }

/-- `getCurrentValidatorSet`: absent/empty storage value yields the all-empty
set with `eraIndex 0`; otherwise each JSON field is coerced with
`|| 0` / `|| []`. -/
def getCurrentValidatorSet (st : ChainState) : ValidatorSet :=
  match st.currentValidatorSet with
  | none =>
    { eraIndex := 0
      stakeValidators := []
      parliamentaryValidators := []
      meritValidators := [] }
  | some data =>
    { eraIndex := data.eraIndex.getD 0
      stakeValidators := data.stakeValidators.getD []
      parliamentaryValidators := data.parliamentaryValidators.getD []
      meritValidators := data.meritValidators.getD [] }

/-- `isInPool`: queries the `poolMembers` map at the address and tests
`category.isSome`. -/
def isInPool (st : ChainState) (accountAddress : String) : Bool :=
  (st.poolMembers.lookup accountAddress).isSome

/-- `getValidatorCategory`: queries the same `poolMembers` map; `null`
(here `none`) when absent, otherwise the stored category. -/
def getValidatorCategory (st : ChainState) (accountAddress : String) :
    Option ValidatorPoolCategory :=
  match st.poolMembers.lookup accountAddress with
  | none => none
  | some category => some category

/-- Hydration of one raw metrics option as done inside `getAllPoolMembers`:
a present record has each field coerced with `|| 0`, an absent record
becomes the all-zero `ValidatorPerformance`. -/
def hydratePerformance (metricsOption : Option RawPerformance) :
    ValidatorPerformance :=
  match metricsOption with
  | some metricsData =>
    { blocksProduced := metricsData.blocksProduced.getD 0
      blocksMissed := metricsData.blocksMissed.getD 0
      eraPoints := metricsData.eraPoints.getD 0
      lastActiveEra := metricsData.lastActiveEra.getD 0
      reputationScore := metricsData.reputationScore.getD 0 }
  | none =>
    { blocksProduced := 0
      blocksMissed := 0
      eraPoints := 0
      lastActiveEra := 0
      reputationScore := 0 }

/-- `getAllPoolMembers`: for each entry of the `poolMembers` map, look up the
performance metrics, hydrate them (all-zero when missing) and annotate
`isActive := performance.reputationScore >= 70`. -/
def getAllPoolMembers (st : ChainState) : List PoolMember :=
  st.poolMembers.map (fun entry =>
    let account := entry.1
    let category := entry.2
    let performance := hydratePerformance (st.performanceMetrics account)
    { account := account
      category := category
      performance := performance
      isActive := decide (70 ≤ performance.reputationScore) })

/-- `getPoolMembersByCategory`: filters the full listing by category
equality. -/
def getPoolMembersByCategory (st : ChainState)
    (category : ValidatorPoolCategory) : List PoolMember :=
  (getAllPoolMembers st).filter (fun m => m.category == category)

/-- Dispatch errors reported by the chain at block inclusion (the pallet's
error variants are opaque to this client module). -/
inductive DispatchError
  | alreadyMember
  | notMember
  | other (code : Nat)
deriving DecidableEq, Repr

/-- Write intents the transaction helpers submit to the chain. -/
inductive ChainIntent
  | joinPool (signer : String) (category : ValidatorPoolCategory)
  | leavePool (signer : String)
  | updateCategory (signer : String) (category : ValidatorPoolCategory)
deriving DecidableEq, Repr

/-- Result of a transaction helper: the intents it submitted to the chain
and the promise outcome observed at `status.isInBlock`. -/
structure TxOutcome where
  emittedIntents : List ChainIntent
  result : Except DispatchError Unit
deriving Repr

/-- `joinValidatorPool`: builds `tx.validatorPool.joinValidatorPool(category)`
and `signAndSend`s it unconditionally — the source performs no local
membership check before submitting.  `dispatchError` is the chain's
asynchronous dispatch result observed in the `status.isInBlock` callback:
the promise rejects with it when present, resolves otherwise.  The chain
state `st` is available through `api` but never consulted. -/
def joinValidatorPool (st : ChainState) (signerAddress : String)
    (category : ValidatorPoolCategory)
    (dispatchError : Option DispatchError) : TxOutcome :=
  { emittedIntents := [ChainIntent.joinPool signerAddress category]
    result :=
      match dispatchError with
      | some e => Except.error e
      | none => Except.ok () }

/-- `estimateEraRewards`: guarded proportional split.  JS `number`
arithmetic on exact values is modelled with `ℚ`. -/
def estimateEraRewards (eraPoints totalEraPoints totalRewards : ℚ) : ℚ :=
  if totalEraPoints = 0 then 0
  else eraPoints / totalEraPoints * totalRewards

/-- Return shape of `getReputationStatus`. -/
structure ReputationStatus where
  label : String
  color : String
  canValidate : Bool
deriving DecidableEq, Repr

/-- `getReputationStatus`: high-to-low `if` chain on the score. -/
def getReputationStatus (score : Int) : ReputationStatus :=
  if 90 ≤ score then { label := "Excellent", color := "green", canValidate := true }
  else if 70 ≤ score then { label := "Good", color := "blue", canValidate := true }
  else if 50 ≤ score then { label := "Fair", color := "yellow", canValidate := false }
  else { label := "Poor", color := "red", canValidate := false }

/-- Return shape of `blocksToTime`. -/
structure TimeEstimate where
  days : Nat
  hours : Nat
  minutes : Nat
deriving DecidableEq, Repr

/-- `blocksToTime`: 6 seconds per block, floor decomposition via
`Math.floor` on non-negative integer inputs. -/
def blocksToTime (blocks : Nat) : TimeEstimate :=
  let seconds := blocks * 6
  { days := seconds / 86400
    hours := seconds % 86400 / 3600
    minutes := seconds % 3600 / 60 }

/-- Concrete raw metrics record used in closed witnesses (the §8 scenario
member of the spec). -/
def sampleMetrics : RawPerformance :=
  { blocksProduced := some 100
    blocksMissed := some 5
    eraPoints := some 950
    lastActiveEra := some 3
    reputationScore := some 92 }

/-- Concrete chain state used in closed witnesses: two pool members, one
with metrics, one without, and an absent current validator set. -/
def sampleState : ChainState :=
  { currentEra := some 7
    poolSize := some 2
    eraLength := some 100
    eraStart := some 1000
    currentBlock := 1050
    poolMembers := [("5Alice", ValidatorPoolCategory.StakeValidator),
                    ("5Bob", ValidatorPoolCategory.MeritValidator)]
    performanceMetrics := fun a => if a = "5Alice" then some sampleMetrics else none
    currentValidatorSet := none }

/-- The member hydration builds for the first `sampleState` entry. -/
def sampleAliceMember : PoolMember :=
  { account := "5Alice"
    category := ValidatorPoolCategory.StakeValidator
    performance := ⟨100, 5, 950, 3, 92⟩
    isActive := true }

/-- The member hydration builds for the second `sampleState` entry, whose
identity has no performance record. -/
def sampleBobMember : PoolMember :=
  { account := "5Bob"
    category := ValidatorPoolCategory.MeritValidator
    performance := ⟨0, 0, 0, 0, 0⟩
    isActive := false }

/-- Chain state for the era-boundary-passed scenario
(`eraLength=100, eraStartBlock=1000, currentBlock=1150`). -/
def eraPassedState : ChainState :=
  { currentEra := some 7
    poolSize := some 0
    eraLength := some 100
    eraStart := some 1000
    currentBlock := 1150
    poolMembers := []
    performanceMetrics := fun _ => none
    currentValidatorSet := none }

/-- Chain state for the mid-era scenario
(`eraLength=100, eraStartBlock=1000, currentBlock=1050`). -/
def midEraState : ChainState :=
  { currentEra := some 7
    poolSize := some 0
    eraLength := some 100
    eraStart := some 1000
    currentBlock := 1050
    poolMembers := []
    performanceMetrics := fun _ => none
    currentValidatorSet := none }

/-- C1: every member produced by `getAllPoolMembers` has
`isActive = (performance.reputationScore >= 70)`; no member is ever built
whose `isActive` differs from the threshold predicate over its own
performance record. -/
theorem getAllPoolMembers_isActive_iff_threshold (st : ChainState)
    (m : PoolMember) (hm : m ∈ getAllPoolMembers st) :
    m.isActive = decide (70 ≤ m.performance.reputationScore) := by
  simp only [getAllPoolMembers, List.mem_map] at hm
  obtain ⟨entry, -, rfl⟩ := hm
  rfl

/-- Witness for C1 at the concrete `sampleState` and its hydrated first
member. -/
theorem getAllPoolMembers_isActive_iff_threshold_witness :
    sampleAliceMember ∈ getAllPoolMembers sampleState ∧
    sampleAliceMember.isActive =
      decide (70 ≤ sampleAliceMember.performance.reputationScore) :=
  ⟨by decide,
   getAllPoolMembers_isActive_iff_threshold sampleState sampleAliceMember
     (by decide)⟩

/-- C2: `getReputationStatus` realises the range table — score ≥ 90 yields
Excellent with `canValidate = true`; 70..89 yields Good with
`canValidate = true`; 50..69 yields Fair with `canValidate = false`;
score < 50 yields Poor with `canValidate = false`; the four ranges cover
every score (no gaps), and since the four result records are pairwise
distinct the ranges cannot overlap. -/
theorem getReputationStatus_range_table (score : Int) :
    (90 ≤ score →
      getReputationStatus score = ⟨"Excellent", "green", true⟩) ∧
    (70 ≤ score ∧ score ≤ 89 →
      getReputationStatus score = ⟨"Good", "blue", true⟩) ∧
    (50 ≤ score ∧ score ≤ 69 →
      getReputationStatus score = ⟨"Fair", "yellow", false⟩) ∧
    (score < 50 →
      getReputationStatus score = ⟨"Poor", "red", false⟩) ∧
    ((90 ≤ score) ∨ (70 ≤ score ∧ score ≤ 89) ∨
      (50 ≤ score ∧ score ≤ 69) ∨ score < 50) := by
  refine ⟨fun h => ?_, fun h => ?_, fun h => ?_, fun h => ?_, by omega⟩ <;>
    (simp only [getReputationStatus]; split_ifs <;> first | rfl | omega)

/-- Witness for C2 at the concrete score 92 (the §8 scenario). -/
theorem getReputationStatus_range_table_witness :
    (90 : Int) ≤ 92 ∧
    getReputationStatus 92 = ⟨"Excellent", "green", true⟩ :=
  ⟨by decide, (getReputationStatus_range_table 92).1 (by decide)⟩

/-- C3: `getPoolStats` computes
`blocksUntilNewEra = max 0 (eraStartBlock + eraLength - currentBlock)`,
which is never negative; in particular the era-passed scenario gives 0 and
the mid-era scenario gives 50. -/
theorem getPoolStats_blocksUntilNewEra (st : ChainState) :
    (getPoolStats st).blocksUntilNewEra =
      max 0 (((getPoolStats st).eraStartBlock : Int) +
        ((getPoolStats st).eraLength : Int) -
        ((getPoolStats st).currentBlock : Int)) ∧
    0 ≤ (getPoolStats st).blocksUntilNewEra ∧
    (getPoolStats eraPassedState).blocksUntilNewEra = 0 ∧
    (getPoolStats midEraState).blocksUntilNewEra = 50 :=
  ⟨rfl, le_max_left 0 _, by decide, by decide⟩

/-- C4: `estimateEraRewards` returns 0 whenever `totalEraPoints = 0`, and
otherwise the proportional split `eraPoints / totalEraPoints *
totalRewards`. -/
theorem estimateEraRewards_zero_guard (x y t : ℚ) :
    estimateEraRewards x 0 y = 0 ∧
    (t ≠ 0 → estimateEraRewards x t y = x / t * y) := by
  constructor
  · simp [estimateEraRewards]
  · intro ht
    simp [estimateEraRewards, ht]

/-- Witness for C4 at concrete rationals (nonzero total era points). -/
theorem estimateEraRewards_zero_guard_witness :
    (4 : ℚ) ≠ 0 ∧ estimateEraRewards 3 4 20 = 3 / 4 * 20 :=
  ⟨by norm_num, (estimateEraRewards_zero_guard 3 20 4).2 (by norm_num)⟩

/-- C5: each category-filtered listing is a sublist (order-preserving
subset) of the full listing, and membership in the filtered listing for
category `c` holds exactly when the member's category is `c` — so the
three category listings partition the full listing: every member appears
in the one listing of its own category and in no other. -/
theorem getPoolMembersByCategory_sublist_partition (st : ChainState)
    (c : ValidatorPoolCategory) :
    (getPoolMembersByCategory st c).Sublist (getAllPoolMembers st) ∧
    ∀ m ∈ getAllPoolMembers st,
      (m ∈ getPoolMembersByCategory st c ↔ m.category = c) := by
  constructor
  · exact List.filter_sublist _
  · intro m hm
    simp [getPoolMembersByCategory, List.mem_filter, hm]

/-- Witness for C5 at the concrete `sampleState`, stake category and the
first hydrated member. -/
theorem getPoolMembersByCategory_sublist_partition_witness :
    sampleAliceMember ∈ getAllPoolMembers sampleState ∧
    (getPoolMembersByCategory sampleState
        ValidatorPoolCategory.StakeValidator).Sublist
      (getAllPoolMembers sampleState) ∧
    (sampleAliceMember ∈ getPoolMembersByCategory sampleState
        ValidatorPoolCategory.StakeValidator ↔
      sampleAliceMember.category = ValidatorPoolCategory.StakeValidator) :=
  ⟨by decide,
   (getPoolMembersByCategory_sublist_partition sampleState
     ValidatorPoolCategory.StakeValidator).1,
   (getPoolMembersByCategory_sublist_partition sampleState
     ValidatorPoolCategory.StakeValidator).2 sampleAliceMember (by decide)⟩

/-- C6: during hydration, a member whose identity has no performance record
in the lookup is built with the all-zero `ValidatorPerformance`, and is
therefore inactive. -/
theorem getAllPoolMembers_missing_metrics_zero (st : ChainState)
    (m : PoolMember) (hm : m ∈ getAllPoolMembers st)
    (hmiss : st.performanceMetrics m.account = none) :
    m.performance = ⟨0, 0, 0, 0, 0⟩ ∧ m.isActive = false := by
  simp only [getAllPoolMembers, List.mem_map] at hm
  obtain ⟨entry, -, rfl⟩ := hm
  have h1 : st.performanceMetrics entry.1 = none := hmiss
  constructor
  · show hydratePerformance (st.performanceMetrics entry.1) = _
    rw [h1]
    rfl
  · show decide (70 ≤
      (hydratePerformance (st.performanceMetrics entry.1)).reputationScore) = false
    rw [h1]
    rfl

/-- Witness for C6 at the concrete `sampleState` and its metrics-less
second member. -/
theorem getAllPoolMembers_missing_metrics_zero_witness :
    sampleBobMember ∈ getAllPoolMembers sampleState ∧
    sampleState.performanceMetrics sampleBobMember.account = none ∧
    (sampleBobMember.performance = ⟨0, 0, 0, 0, 0⟩ ∧
      sampleBobMember.isActive = false) :=
  ⟨by decide, by decide,
   getAllPoolMembers_missing_metrics_zero sampleState sampleBobMember
     (by decide) (by decide)⟩

/-- C7: when the chain's current validator set storage is absent/empty,
`getCurrentValidatorSet` returns (rather than failing) the set with
`eraIndex 0` and all three validator lists empty. -/
theorem getCurrentValidatorSet_absent_default (st : ChainState)
    (h : st.currentValidatorSet = none) :
    getCurrentValidatorSet st =
      { eraIndex := 0
        stakeValidators := []
        parliamentaryValidators := []
        meritValidators := [] } := by
  simp [getCurrentValidatorSet, h]

/-- Witness for C7 at the concrete `sampleState`, whose validator-set
storage is absent. -/
theorem getCurrentValidatorSet_absent_default_witness :
    sampleState.currentValidatorSet = none ∧
    getCurrentValidatorSet sampleState =
      { eraIndex := 0
        stakeValidators := []
        parliamentaryValidators := []
        meritValidators := [] } :=
  ⟨rfl, getCurrentValidatorSet_absent_default sampleState rfl⟩

/-- C8 counterexample: at a concrete state in which the signer is already a
pool member, `joinValidatorPool` still emits the join intent to the chain
and completes without any synchronous `AlreadyMember` rejection — refuting
the claim that the join fails before any external call for a current
member. -/
theorem joinValidatorPool_emits_despite_membership :
    isInPool sampleState "5Alice" = true ∧
    (joinValidatorPool sampleState "5Alice"
        ValidatorPoolCategory.StakeValidator none).emittedIntents =
      [ChainIntent.joinPool "5Alice" ValidatorPoolCategory.StakeValidator] ∧
    (joinValidatorPool sampleState "5Alice"
        ValidatorPoolCategory.StakeValidator none).result = Except.ok () :=
  ⟨by decide, rfl, rfl⟩

/-- C8 amended: `joinValidatorPool` performs no local membership
precondition check — for every chain state it emits exactly the one join
intent (the emission is independent of the state, hence happens even for a
current member), and its outcome is exactly the chain's asynchronous
dispatch result observed at block inclusion. -/
theorem joinValidatorPool_always_emits (st st' : ChainState)
    (signer : String) (category : ValidatorPoolCategory)
    (dispatchError : Option DispatchError) :
    (joinValidatorPool st signer category dispatchError).emittedIntents =
      [ChainIntent.joinPool signer category] ∧
    joinValidatorPool st signer category dispatchError =
      joinValidatorPool st' signer category dispatchError ∧
    (joinValidatorPool st signer category dispatchError).result =
      (match dispatchError with
        | some e => Except.error e
        | none => Except.ok ()) :=
  ⟨rfl, rfl, rfl⟩

/-- C9: the two membership queries agree on every chain state and address:
`isInPool` is true exactly when `getValidatorCategory` returns a category
(both read the same `poolMembers` storage map). -/
theorem isInPool_iff_category_some (st : ChainState) (a : String) :
    isInPool st a = (getValidatorCategory st a).isSome := by
  cases hl : st.poolMembers.lookup a <;>
    simp [isInPool, getValidatorCategory, hl]

/-- C10: `blocksToTime` is the canonical floor decomposition of
`blocks * 6` seconds into days, hours and minutes: hours < 24,
minutes < 60, and the reassembled seconds undershoot the exact value by
less than one minute. -/
theorem blocksToTime_floor_decomposition (blocks : Nat) :
    (blocksToTime blocks).hours < 24 ∧
    (blocksToTime blocks).minutes < 60 ∧
    (blocksToTime blocks).days * 86400 + (blocksToTime blocks).hours * 3600 +
      (blocksToTime blocks).minutes * 60 ≤ blocks * 6 ∧
    blocks * 6 < (blocksToTime blocks).days * 86400 +
      (blocksToTime blocks).hours * 3600 +
      (blocksToTime blocks).minutes * 60 + 60 := by
  dsimp only [blocksToTime]
  omega

end ValidatorPool
